import Mathlib

/-!
Verification development for the Ragnok4Linux backend (`src/backend.py`).

The Python source is shallowly embedded: byte strings become `List Nat`
(every element is intended to lie in `[0, 255]`; arithmetic that the source
masks with `& 0xFF` is modelled with explicit `% 256`), Python `int` becomes
`Int` where negative values can occur, `time.monotonic()` timestamps become
`ℚ`, and fallible code (Python exceptions) returns `Option`.  Device I/O,
which the source performs through `HidDevice.transceive_expect`, is
abstracted by an oracle `Transceive` mapping a transmitted 17-byte frame and
the expected reply op code to the (optional) matching valid reply frame.
-/

namespace Ragnok

/-- `checksum_0x55` from `backend.py`: `(0x55 - (sum(data) & 0xFF)) & 0xFF`.
Python's `& 0xFF` on a possibly negative `int` is Euclidean `% 256`. -/
def checksum_0x55 (data : List Nat) : Nat :=
  (((0x55 : Int) - ((data.sum : Int) % 256)) % 256).toNat

/-- `pack17` from `backend.py`: requires a 16-byte payload (otherwise it
raises `ValueError`, modelled as `none`) and appends the packet checksum. -/
def pack17 (payload16 : List Nat) : Option (List Nat) :=
  if payload16.length ≠ 16 then none
  else some (payload16 ++ [checksum_0x55 payload16])

/-- One 17-byte sliding window of a read buffer, starting at offset `i`
(Python `data[i:i+17]`). -/
def win17 (data : List Nat) (i : Nat) : List Nat :=
  (data.drop i).take 17

/-- The frame-validity test applied to each window in
`HidDevice._read_any_valid17`: `checksum_0x55(pkt[:16]) == pkt[16]`. -/
def frameValid (pkt : List Nat) : Prop :=
  checksum_0x55 (pkt.take 16) = pkt.getD 16 0

instance (pkt : List Nat) : Decidable (frameValid pkt) := Nat.decEq _ _

/-- The scan loop of `HidDevice._read_any_valid17`: try each window start in
order, returning the first window that passes the checksum test. -/
def scanStarts (data : List Nat) (starts : List Nat) : Option (List Nat) :=
  match starts with
  | [] => none
  | i :: rest =>
    if frameValid (win17 data i) then some (win17 data i)
    else scanStarts data rest

/-- `HidDevice._read_any_valid17` applied to one buffer read from the
device: buffers shorter than 17 bytes are rejected, otherwise every 17-byte
sliding window (starts `range(0, len(data) - 17 + 1)`) is scanned for the
first one passing the checksum test.  The `select`/`os.read` plumbing is
outside the embedding; `data` is the buffer the read returned. -/
def read_any_valid17 (data : List Nat) : Option (List Nat) :=
  if data.length < 17 then none
  else scanStarts data (List.range (data.length - 17 + 1))

/-- The polling loop of `HidDevice.transceive_expect` after the frame has
been written: each iteration performs one buffered read and accepts the
packet returned by `_read_any_valid17` only when its op code (byte 1)
equals `expect_cmd`; otherwise the iteration's buffer is abandoned and the
loop polls again.  The overall timeout is abstracted as the finite list
`reads` of buffers obtained before the deadline. -/
def transceive_expect (reads : List (List Nat)) (expect_cmd : Nat) :
    Option (List Nat) :=
  match reads with
  | [] => none
  | d :: rest =>
    match read_any_valid17 d with
    | some pkt =>
      if pkt.getD 1 0 = expect_cmd then some pkt
      else transceive_expect rest expect_cmd
    | none => transceive_expect rest expect_cmd

/-- Modelled from the spec (for comparison with the source behaviour, not
from the code): "scan every 17-byte sliding window of the latest read for
one that validates and whose op code matches the expected reply — accept
the first such window". -/
def spec_first_matching_window (data : List Nat) (expect_cmd : Nat) :
    Option (List Nat) :=
  go (List.range (data.length - 17 + 1))
where
  go : List Nat → Option (List Nat)
  | [] => none
  | i :: rest =>
    if frameValid (win17 data i) ∧ (win17 data i).getD 1 0 = expect_cmd then
      some (win17 data i)
    else go rest

/-- Sequential byte writes into a buffer from offset `off` (Python slice
assignment `buf[off:off+len(data)] = data`, or the per-byte event loop in
`build_macro_string_record`). -/
def writeBytes (l : List Nat) (off : Nat) (data : List Nat) : List Nat :=
  match data with
  | [] => l
  | b :: rest => writeBytes (l.set off b) (off + 1) rest

/-- `cmd_read_battery` from `backend.py`. -/
def cmd_read_battery : Option (List Nat) :=
  pack17 ([0x08, 0x04] ++ List.replicate 14 0)

/-- `cmd_read_flash` from `backend.py`. -/
def cmd_read_flash (addr count : Nat) : Option (List Nat) :=
  let p := List.replicate 16 0
  let p := p.set 0 0x08
  let p := p.set 1 0x08
  let p := p.set 3 ((addr >>> 8) % 256)
  let p := p.set 4 (addr % 256)
  let p := p.set 5 (count % 256)
  pack17 p

/-- `cmd_write_0807_checked` from `backend.py`: checked write style, count
field `len(data) + 1`, trailing `checksum_0x55(data)` inside the payload;
raises (modelled `none`) when more than 9 data bytes are supplied. -/
def cmd_write_0807_checked (addr : Nat) (data : List Nat) : Option (List Nat) :=
  if data.length > 9 then none
  else
    let count := data.length + 1
    let p := List.replicate 16 0
    let p := p.set 0 0x08
    let p := p.set 1 0x07
    let p := p.set 3 ((addr >>> 8) % 256)
    let p := p.set 4 (addr % 256)
    let p := p.set 5 (count % 256)
    let p := writeBytes p 6 data
    let p := p.set (6 + data.length) (checksum_0x55 data)
    pack17 p

/-- `cmd_write_0807_raw` from `backend.py`: raw write style, count field
exactly `len(data)`, no trailing payload checksum; raises (modelled
`none`) when more than 10 data bytes are supplied. -/
def cmd_write_0807_raw (addr : Nat) (data : List Nat) : Option (List Nat) :=
  if data.length > 10 then none
  else
    let p := List.replicate 16 0
    let p := p.set 0 0x08
    let p := p.set 1 0x07
    let p := p.set 3 ((addr >>> 8) % 256)
    let p := p.set 4 (addr % 256)
    let p := p.set 5 (data.length % 256)
    let p := writeBytes p 6 data
    pack17 p

def DPI_LEVEL_SELECT_ADDR : Nat := 0x0004
def DPI_LEVEL_BASE_ADDR : Nat := 0x000C
def DPI_LEVEL_STRIDE : Nat := 0x0004
def POLLING_RATE_ADDR : Nat := 0x0000
def MOTION_SYNC_ADDR : Nat := 0x00AB
def ANGLE_SNAP_ADDR : Nat := 0x00AF
def RIPPLE_CONTROL_ADDR : Nat := 0x00B1
def LED_CONFIG_ADDR : Nat := 0x00A0
def LED_APPLY_ADDR : Nat := 0x00A7
def BUTTON_MAP_ADDR : Nat := 0x0070
def BTN4_BIND_DATA : List Nat := [0x06, 0x04, 0x01]
def MACRO_SLOT0_ADDR : Nat := 0x0900
def MACRO_RECORD_LEN : Nat := 384

/-- `POLLING_CODE_TO_HZ` lookup table from `backend.py` (a Python dict;
`none` models a key miss). -/
def POLLING_CODE_TO_HZ (code : Nat) : Option Int :=
  if code = 1 then some 125
  else if code = 2 then some 250
  else if code = 3 then some 500
  else if code = 4 then some 1000
  else none

/-- Python3 `round` on an exact rational value: round half to even
(banker's rounding).  For `dpi / 100` with integer `dpi` the float
division in the source is exact enough that this models
`round(dpi / 100)` faithfully (ties arise only at exactly representable
halves). -/
def pyRound (q : ℚ) : Int :=
  if q - ⌊q⌋ < 1/2 then ⌊q⌋
  else if 1/2 < q - ⌊q⌋ then ⌊q⌋ + 1
  else if 2 ∣ ⌊q⌋ then ⌊q⌋ else ⌊q⌋ + 1

/-- `dpi_to_raw` from `backend.py`: `max(1, min(255, int(round(dpi / 100))))`. -/
def dpi_to_raw (dpi : Int) : Int :=
  max 1 (min 255 (pyRound ((dpi : ℚ) / 100)))

/-- The `HID_KEYS` table from `backend.py`, as a function on characters.
Characters are matched by code point to keep the source's punctuation
entries readable: 97..122 are the lowercase letters, then digits,
whitespace, unshifted punctuation, and the shifted (modifier 0x02)
symbols, exactly the keys of the Python dict. -/
def HID_KEYS (ch : Char) : Option (Nat × Nat) :=
  if 97 ≤ ch.toNat ∧ ch.toNat ≤ 122 then some (0x04 + (ch.toNat - 97), 0x00)
  else
    match ch.toNat with
    | 49 => some (0x1E, 0x00)
    | 50 => some (0x1F, 0x00)
    | 51 => some (0x20, 0x00)
    | 52 => some (0x21, 0x00)
    | 53 => some (0x22, 0x00)
    | 54 => some (0x23, 0x00)
    | 55 => some (0x24, 0x00)
    | 56 => some (0x25, 0x00)
    | 57 => some (0x26, 0x00)
    | 48 => some (0x27, 0x00)
    | 32 => some (0x2C, 0x00)
    | 10 => some (0x28, 0x00)
    | 9 => some (0x2B, 0x00)
    | 45 => some (0x2D, 0x00)
    | 61 => some (0x2E, 0x00)
    | 91 => some (0x2F, 0x00)
    | 93 => some (0x30, 0x00)
    | 92 => some (0x31, 0x00)
    | 59 => some (0x33, 0x00)
    | 39 => some (0x34, 0x00)
    | 96 => some (0x35, 0x00)
    | 44 => some (0x36, 0x00)
    | 46 => some (0x37, 0x00)
    | 47 => some (0x38, 0x00)
    | 33 => some (0x1E, 0x02)
    | 64 => some (0x1F, 0x02)
    | 35 => some (0x20, 0x02)
    | 36 => some (0x21, 0x02)
    | 37 => some (0x22, 0x02)
    | 94 => some (0x23, 0x02)
    | 38 => some (0x24, 0x02)
    | 42 => some (0x25, 0x02)
    | 40 => some (0x26, 0x02)
    | 41 => some (0x27, 0x02)
    | 95 => some (0x2D, 0x02)
    | 43 => some (0x2E, 0x02)
    | 123 => some (0x2F, 0x02)
    | 125 => some (0x30, 0x02)
    | 124 => some (0x31, 0x02)
    | 58 => some (0x33, 0x02)
    | 34 => some (0x34, 0x02)
    | 126 => some (0x35, 0x02)
    | 60 => some (0x36, 0x02)
    | 62 => some (0x37, 0x02)
    | 63 => some (0x38, 0x02)
    | _ => none

/-- `hid_keycode_for_char` from `backend.py`: uppercase ASCII letters
auto-shift (keycode of the lowercase letter, modifier 0x02; in the source
any other `isalpha() and isupper()` character falls out of `HID_KEYS` and
yields `None`, as it does here); everything else is a direct table
lookup. -/
def hid_keycode_for_char (ch : Char) : Option (Nat × Nat) :=
  if 65 ≤ ch.toNat ∧ ch.toNat ≤ 90 then
    match HID_KEYS (Char.ofNat (ch.toNat + 32)) with
    | some (key, _) => some (key, 0x02)
    | none => none
  else HID_KEYS ch

/-- The event-building loop of `build_macro_string_record`: `count` is the
number of events already emitted; a mapped character appends the
press/release pair, then the loop breaks once at least 70 events exist.
`rest.isEmpty` is `idx < len(text) - 1` read through the recursion: the
inter-key delay applies except on the final character of the text. -/
def macroEventsGo (press inter : Nat) : List Char → Nat → List (Nat × Nat × Nat × Nat)
  | [], _ => []
  | ch :: rest, count =>
    match hid_keycode_for_char ch with
    | none => macroEventsGo press inter rest count
    | some (keycode, modifier) =>
      let delay_after := if rest.isEmpty then 0 else inter
      let pair := [(0x80, keycode, modifier, press),
                   (0x40, keycode, modifier, delay_after)]
      if 70 ≤ count + 2 then pair
      else pair ++ macroEventsGo press inter rest (count + 2)

/-- The full `events` list computed by `build_macro_string_record` for
given (already clamped) delays. -/
def macroEvents (text : List Char) (press inter : Nat) :
    List (Nat × Nat × Nat × Nat) :=
  macroEventsGo press inter text 0

/-- Modelled from the spec: for each mapped character in order a press
event (flag 0x80, keycode, modifier, press-delay) followed by a release
event (flag 0x40, same keycode and modifier, delay the inter-key delay,
except 0 on the final character); unmapped characters are silently
skipped, consuming no event budget (truncation to 70 events is applied by
the caller). -/
def spec_event_pairs (press inter : Nat) : List Char → List (Nat × Nat × Nat × Nat)
  | [] => []
  | ch :: rest =>
    (match hid_keycode_for_char ch with
     | none => []
     | some (keycode, modifier) =>
       [(0x80, keycode, modifier, press),
        (0x40, keycode, modifier, if rest.isEmpty then 0 else inter)]) ++
    spec_event_pairs press inter rest

/-- The five buffer bytes one event contributes in
`build_macro_string_record` (`KEY_TYPE_KEYBOARD = 0x01` is OR-ed into the
flag; the 16-bit delay is stored big-endian). -/
def eventBytes : Nat × Nat × Nat × Nat → List Nat
  | (flag, keycode, modifier, delay) =>
    [(flag ||| 0x01) % 256, keycode % 256, modifier % 256,
     (delay >>> 8) % 256, delay % 256]

/-- Python `name.encode("ascii", errors="ignore")`: non-ASCII characters
are dropped. -/
def asciiIgnore (c : Char) : Option Nat :=
  if c.toNat < 128 then some c.toNat else none

/-- The delay clamping applied on entry to `build_macro_string_record`:
`max(0, min(65535, int(x)))`. -/
def clamp16 (x : Int) : Nat := (max 0 (min 65535 x)).toNat

/-- `build_macro_string_record` from `backend.py`. -/
def build_macro_string_record (name : List Char) (text : List Char)
    (press_delay_ms inter_key_delay_ms : Int) : List Nat :=
  let press := clamp16 press_delay_ms
  let inter := clamp16 inter_key_delay_ms
  let events := macroEvents text press inter
  let buf := List.replicate MACRO_RECORD_LEN 0xFF
  let name_b := (name.filterMap asciiIgnore).take 29
  let buf := buf.set 0 name_b.length
  let buf := writeBytes buf 1 name_b
  let buf := buf.set 31 events.length
  let buf := writeBytes buf 32 (events.map eventBytes).flatten
  let chk_index := 32 + 5 * events.length
  let buf := buf.set chk_index (checksum_0x55 ((buf.drop 31).take (chk_index - 31)))
  buf

/-- The abstract transport: what `HidDevice.transceive_expect` yields for
a transmitted frame and expected reply op code, the polling/timeout
machinery folded in (`none` is a transaction timeout). -/
abbrev Transceive : Type := List Nat → Nat → Option (List Nat)

/-- The frames handed to the transport, in transmission order. -/
abbrev Frames : Type := List (List Nat)

/-- The cached session state of `Backend` (`__init__` fields); `connected`
models `self.dev is not None` and `last_rx_time` the monotonic timestamp
of the last successful reception. -/
structure Backend where
  connected : Bool
  dpi_value : Int
  battery_percent : Int
  polling_hz : Int
  ripple_control : Bool
  angle_snap : Bool
  motion_sync : Bool
  led_mode : Int
  led_r : Nat
  led_g : Nat
  led_b : Nat
  led_speed : Nat
  led_brightness : Nat
  btn4_macro_bound : Bool
  last_rx_time : ℚ
deriving DecidableEq

/-- The initial cached values of `Backend.__init__`, with the connection
flag supplied (the constructor itself starts disconnected). -/
def initBackend (connected : Bool) : Backend :=
  { connected := connected
    dpi_value := -1
    battery_percent := -1
    polling_hz := -1
    ripple_control := false
    angle_snap := false
    motion_sync := false
    led_mode := -1
    led_r := 0
    led_g := 0
    led_b := 0
    led_speed := 0
    led_brightness := 0
    btn4_macro_bound := false
    last_rx_time := 0 }

/-- Two session states agree on every cached feature field (everything
except the last-reception timestamp). -/
def eqExceptRx (a b : Backend) : Prop :=
  a.connected = b.connected ∧ a.dpi_value = b.dpi_value ∧
  a.battery_percent = b.battery_percent ∧ a.polling_hz = b.polling_hz ∧
  a.ripple_control = b.ripple_control ∧ a.angle_snap = b.angle_snap ∧
  a.motion_sync = b.motion_sync ∧ a.led_mode = b.led_mode ∧
  a.led_r = b.led_r ∧ a.led_g = b.led_g ∧ a.led_b = b.led_b ∧
  a.led_speed = b.led_speed ∧ a.led_brightness = b.led_brightness ∧
  a.btn4_macro_bound = b.btn4_macro_bound

def SLEEP_TIMEOUT : ℚ := 5

/-- `Backend.is_sleeping`: connected and more than `SLEEP_TIMEOUT` seconds
since the last successful reception. -/
def is_sleeping (st : Backend) (now : ℚ) : Bool :=
  st.connected && decide (now - st.last_rx_time > SLEEP_TIMEOUT)

/-- `Backend.read_flash`: requires a connection (`_require_dev` raises
otherwise, modelled by the outer `none`), transmits the flash-read frame,
and on reply extracts `rx[6:6+count]` and stamps `last_rx_time`.  The
returned list is the frames actually handed to the transport. -/
def read_flash (tr : Transceive) (st : Backend) (now : ℚ)
    (addr count : Nat) : Option (Option (List Nat) × Backend) × Frames :=
  if st.connected = false then (none, [])
  else
    match cmd_read_flash addr count with
    | none => (none, [])
    | some fr =>
      match tr fr 0x08 with
      | none => (some (none, st), [fr])
      | some rx =>
        (some (some ((rx.drop 6).take count), { st with last_rx_time := now }),
         [fr])

/-- `Backend._write_checked`: connection required, frame encoded by
`cmd_write_0807_checked` (an encoder exception propagates: outer `none`,
nothing transmitted), then one transaction awaiting reply op 0x07. -/
def write_checked (tr : Transceive) (st : Backend) (now : ℚ)
    (addr : Nat) (data : List Nat) : Option (Bool × Backend) × Frames :=
  if st.connected = false then (none, [])
  else
    match cmd_write_0807_checked addr data with
    | none => (none, [])
    | some fr =>
      match tr fr 0x07 with
      | none => (some (false, st), [fr])
      | some _ => (some (true, { st with last_rx_time := now }), [fr])

/-- `Backend._write_raw`: as `_write_checked` but with the raw write
encoder. -/
def write_raw (tr : Transceive) (st : Backend) (now : ℚ)
    (addr : Nat) (data : List Nat) : Option (Bool × Backend) × Frames :=
  if st.connected = false then (none, [])
  else
    match cmd_write_0807_raw addr data with
    | none => (none, [])
    | some fr =>
      match tr fr 0x07 with
      | none => (some (false, st), [fr])
      | some _ => (some (true, { st with last_rx_time := now }), [fr])

/-- `Backend.read_battery`: one battery-read transaction; on success the
clamped byte 6 of the reply becomes the cached percentage. -/
def read_battery (tr : Transceive) (st : Backend) (now : ℚ) :
    Option (Bool × Backend) × Frames :=
  if st.connected = false then (none, [])
  else
    match cmd_read_battery with
    | none => (none, [])
    | some fr =>
      match tr fr 0x04 with
      | none => (some (false, st), [fr])
      | some rx =>
        (some (true,
          { st with
            last_rx_time := now
            battery_percent := max 0 (min 100 ((rx.getD 6 0 : Nat) : Int)) }),
         [fr])

/-- `Backend.read_polling_rate`: 2-byte record `[code, checksum(code)]`;
an empty/missing record or an inline checksum mismatch fails the read
without touching the cached value. -/
def read_polling_rate (tr : Transceive) (st : Backend) (now : ℚ) :
    Option (Bool × Backend) × Frames :=
  match read_flash tr st now POLLING_RATE_ADDR 2 with
  | (none, fs) => (none, fs)
  | (some (none, st1), fs) => (some (false, st1), fs)
  | (some (some b, st1), fs) =>
    if b.isEmpty then (some (false, st1), fs)
    else if b.getD 1 0 ≠ checksum_0x55 [b.getD 0 0] then (some (false, st1), fs)
    else
      (some (true,
        { st1 with polling_hz := (POLLING_CODE_TO_HZ (b.getD 0 0)).getD (-1) }),
       fs)

/-- The inner `read_bool` of `Backend.read_toggles`: 2-byte record with
inline checksum; `none` in the first component of a successful run means
the record was missing or corrupt. -/
def read_bool (tr : Transceive) (st : Backend) (now : ℚ) (addr : Nat) :
    Option (Option Bool × Backend) × Frames :=
  match read_flash tr st now addr 2 with
  | (none, fs) => (none, fs)
  | (some (none, st1), fs) => (some (none, st1), fs)
  | (some (some bb, st1), fs) =>
    if bb.isEmpty then (some (none, st1), fs)
    else if bb.getD 1 0 ≠ checksum_0x55 [bb.getD 0 0] then
      (some (none, st1), fs)
    else (some (some (bb.getD 0 0 ≠ 0 : Bool), st1), fs)

/-- `Backend.read_toggles`: reads all three toggle records (ripple, angle,
motion, in source order), then updates the three cached booleans only when
every record decoded. -/
def read_toggles (tr : Transceive) (st : Backend) (now : ℚ) :
    Option (Bool × Backend) × Frames :=
  match read_bool tr st now RIPPLE_CONTROL_ADDR with
  | (none, fs1) => (none, fs1)
  | (some (r, st1), fs1) =>
    match read_bool tr st1 now ANGLE_SNAP_ADDR with
    | (none, fs2) => (none, fs1 ++ fs2)
    | (some (a, st2), fs2) =>
      match read_bool tr st2 now MOTION_SYNC_ADDR with
      | (none, fs3) => (none, fs1 ++ fs2 ++ fs3)
      | (some (m, st3), fs3) =>
        match r, a, m with
        | some rv, some av, some mv =>
          (some (true,
            { st3 with
              ripple_control := rv
              angle_snap := av
              motion_sync := mv }),
           fs1 ++ fs2 ++ fs3)
        | _, _, _ => (some (false, st3), fs1 ++ fs2 ++ fs3)

/-- `Backend.read_btn4_binding`: 4-byte record, checksum over the first
three bytes; a mismatch fails the read leaving the cached flag alone. -/
def read_btn4_binding (tr : Transceive) (st : Backend) (now : ℚ) :
    Option (Bool × Backend) × Frames :=
  match read_flash tr st now BUTTON_MAP_ADDR 4 with
  | (none, fs) => (none, fs)
  | (some (none, st1), fs) => (some (false, st1), fs)
  | (some (some b, st1), fs) =>
    if b.isEmpty then (some (false, st1), fs)
    else if b.getD 3 0 ≠ checksum_0x55 (b.take 3) then (some (false, st1), fs)
    else
      (some (true,
        { st1 with
          btn4_macro_bound :=
            b.getD 0 0 == 0x06 && b.getD 1 0 == 0x04 && b.getD 2 0 == 0x01 }),
       fs)

/-- The worker of `Backend.set_dpi_async`: quantize, one checked write of
`[raw, raw, 0x00]` to the DPI slot, and on success cache the *requested*
`dpi` verbatim.  Exceptions surface as result `false` with the session
state untouched. -/
def set_dpi (tr : Transceive) (st : Backend) (now : ℚ) (dpi : Int) :
    (Bool × Backend) × Frames :=
  let raw := dpi_to_raw dpi
  match write_checked tr st now DPI_LEVEL_BASE_ADDR
      [raw.toNat, raw.toNat, 0x00] with
  | (none, fs) => ((false, st), fs)
  | (some (ok, st1), fs) =>
    ((ok, if ok then { st1 with dpi_value := dpi } else st1), fs)

/-- The config mutation inside `set_led_brightness_speed_async`'s worker:
keep the first 6 config bytes, overwrite the speed byte (index 4) and the
brightness byte (index 5) only for nonzero arguments (stored as the
argument minus one, clamped to 0..9); an argument of 0 leaves the stored
byte unchanged. -/
def led_cfg_update (cfg_full : List Nat) (brightness_1_10 speed_1_10 : Int) :
    List Nat :=
  let cfg := cfg_full.take 6
  let cfg := if speed_1_10 ≠ 0 then
      cfg.set 4 (max 0 (min 9 (speed_1_10 - 1))).toNat else cfg
  let cfg := if brightness_1_10 ≠ 0 then
      cfg.set 5 (max 0 (min 9 (brightness_1_10 - 1))).toNat else cfg
  cfg

/-- The worker of `Backend.set_led_brightness_speed_async`: fetch the LED
config (10 bytes, first 6 used), overwrite the speed/brightness bytes only
for nonzero arguments, write the 6 bytes back, then always issue the
1-byte apply trigger as a second transaction; overall success is the
conjunction, and only then is the cache updated. -/
def set_led_brightness_speed (tr : Transceive) (st : Backend) (now : ℚ)
    (brightness_1_10 speed_1_10 : Int) : (Bool × Backend) × Frames :=
  match read_flash tr st now LED_CONFIG_ADDR 10 with
  | (none, fs) => ((false, st), fs)
  | (some (none, st1), fs) => ((false, st1), fs)
  | (some (some cfg_full, st1), fs) =>
    let cfg := led_cfg_update cfg_full brightness_1_10 speed_1_10
    match write_checked tr st1 now LED_CONFIG_ADDR cfg with
    | (none, fs1) => ((false, st1), fs ++ fs1)
    | (some (ok1, st2), fs1) =>
      match write_checked tr st2 now LED_APPLY_ADDR [0x01] with
      | (none, fs2) => ((false, st2), fs ++ fs1 ++ fs2)
      | (some (ok2, st3), fs2) =>
        let ok := ok1 && ok2
        ((ok,
          if ok then
            { st3 with
              led_speed := cfg.getD 4 0 + 1
              led_brightness := cfg.getD 5 0 + 1 }
          else st3),
         fs ++ fs1 ++ fs2)

/-- A fake transport for concrete runs: every transaction is answered with
a fixed all-zero 17-byte frame. -/
def trAllZero : Transceive := fun _ _ => some (List.replicate 17 0)

/-- A fake transport that never answers. -/
def trSilent : Transceive := fun _ _ => none

lemma scanStarts_range'_eq_some (data : List Nat) (n : Nat) :
    ∀ (a : Nat) (pkt : List Nat),
      scanStarts data (List.range' a n) = some pkt ↔
        ∃ i, a ≤ i ∧ i < a + n ∧ pkt = win17 data i ∧
          frameValid (win17 data i) ∧
          ∀ j, a ≤ j → j < i → ¬ frameValid (win17 data j) := by
  induction n with
  | zero =>
    intro a pkt
    simp only [List.range', scanStarts]
    constructor
    · intro h; exact absurd h (by simp)
    · rintro ⟨i, hai, hia, -⟩; omega
  | succ n ih =>
    intro a pkt
    rw [List.range'_succ]
    simp only [scanStarts]
    by_cases hv : frameValid (win17 data a)
    · rw [if_pos hv]
      constructor
      · intro h
        refine ⟨a, le_refl a, by omega, (Option.some.injEq _ _).mp h.symm, hv, ?_⟩
        intro j haj hja; omega
      · rintro ⟨i, hai, hia, hpkt, hvi, hmin⟩
        have : i = a := by
          by_contra hne
          exact hmin a (le_refl a) (by omega) hv
        subst this; rw [hpkt]

    · rw [if_neg hv, ih (a+1) pkt]
      constructor
      · rintro ⟨i, hai, hia, hpkt, hvi, hmin⟩
        refine ⟨i, by omega, by omega, hpkt, hvi, ?_⟩
        intro j haj hji
        rcases Nat.eq_or_lt_of_le haj with h | h
        · rwa [← h]
        · exact hmin j h hji
      · rintro ⟨i, hai, hia, hpkt, hvi, hmin⟩
        have hne : i ≠ a := by rintro rfl; exact hv hvi
        refine ⟨i, by omega, by omega, hpkt, hvi, ?_⟩
        intro j haj hji
        exact hmin j (by omega) hji

/-- Characterisation of `_read_any_valid17`: it returns exactly the first
17-byte window of the buffer that passes the checksum test, regardless of
that window's op code. -/
lemma read_any_valid17_eq_some (data : List Nat) (pkt : List Nat) :
    read_any_valid17 data = some pkt ↔
      ∃ i, i + 17 ≤ data.length ∧ pkt = win17 data i ∧
        frameValid (win17 data i) ∧
        ∀ j, j < i → ¬ frameValid (win17 data j) := by
  unfold read_any_valid17
  by_cases hlen : data.length < 17
  · rw [if_pos hlen]
    constructor
    · intro h; exact absurd h (by simp)
    · rintro ⟨i, hi, -⟩; omega
  · rw [if_neg hlen, List.range_eq_range' _,
      scanStarts_range'_eq_some data _ 0 pkt]
    constructor
    · rintro ⟨i, -, hia, hpkt, hvi, hmin⟩
      exact ⟨i, by omega, hpkt, hvi, fun j hji => hmin j (Nat.zero_le j) hji⟩
    · rintro ⟨i, hia, hpkt, hvi, hmin⟩
      exact ⟨i, Nat.zero_le i, by omega, hpkt, hvi, fun j _ hji => hmin j hji⟩

/-- C1 (amended): over a single read buffer, `transceive_expect` returns a
packet exactly when that packet is the first checksum-valid 17-byte sliding
window of the buffer AND that first valid window's op code (byte 1) equals
the expected reply op.  In particular corrupted windows before the first
checksum-valid one are skipped, but a checksum-valid window with the wrong
op code causes the entire buffer to be discarded rather than the scan
moving on to a later matching window. -/
theorem transceive_accepts_first_valid_window (data : List Nat)
    (expect_cmd : Nat) (pkt : List Nat) :
    transceive_expect [data] expect_cmd = some pkt ↔
      ∃ i, i + 17 ≤ data.length ∧ pkt = win17 data i ∧
        frameValid (win17 data i) ∧ (win17 data i).getD 1 0 = expect_cmd ∧
        ∀ j, j < i → ¬ frameValid (win17 data j) := by
  simp only [transceive_expect]
  rcases hr : read_any_valid17 data with - | p
  · constructor
    · intro h; exact absurd h (by simp)
    · rintro ⟨i, hia, hpkt, hvi, hop, hmin⟩
      exfalso
      have : read_any_valid17 data = some (win17 data i) :=
        (read_any_valid17_eq_some data _).mpr ⟨i, hia, rfl, hvi, hmin⟩
      rw [hr] at this; exact absurd this (by simp)
  · have hp := (read_any_valid17_eq_some data p).mp hr
    rcases hp with ⟨i, hia, hpw, hvi, hmin⟩
    dsimp only
    by_cases hop : p.getD 1 0 = expect_cmd
    · rw [if_pos hop]
      constructor
      · rintro h
        have : p = pkt := by exact (Option.some.injEq _ _).mp h
        subst this
        exact ⟨i, hia, hpw, hvi, by rw [← hpw]; exact hop, hmin⟩
      · rintro ⟨k, hka, hpkt, hvk, hopk, hmink⟩
        have hik : i = k := by
          rcases Nat.lt_trichotomy i k with h | h | h
          · exact absurd hvi (hmink i h)
          · exact h
          · exact absurd hvk (hmin k h)
        subst hik
        rw [hpkt, ← hpw]
    · rw [if_neg hop]
      constructor
      · intro h; exact absurd h (by simp)
      · rintro ⟨k, hka, hpkt, hvk, hopk, hmink⟩
        exfalso
        have hik : i = k := by
          rcases Nat.lt_trichotomy i k with h | h | h
          · exact absurd hvi (hmink i h)
          · exact h
          · exact absurd hvk (hmin k h)
        subst hik
        rw [hpw] at hop
        exact hop hopk

/-- A 17-byte frame with a deliberately valid checksum, op code 0x07. -/
def frameOp07 : List Nat := [0x08, 0x07] ++ List.replicate 14 0 ++ [0x46]

/-- A 17-byte frame with a valid checksum, op code 0x08. -/
def frameOp08 : List Nat := [0x08, 0x08] ++ List.replicate 14 0 ++ [0x45]

/-- C1 counterexample: on the buffer `frameOp07 ++ frameOp08`, awaiting
reply op 0x08, the claimed behaviour ("accept the first sliding window
that passes the checksum validation and whose op code equals the expected
reply op") would return `frameOp08`, but the code returns nothing for this
buffer: `_read_any_valid17` surrenders the first checksum-valid window
(`frameOp07`, wrong op code) and `transceive_expect` then discards the
whole buffer. -/
theorem transceive_window_op_counterexample :
    transceive_expect [frameOp07 ++ frameOp08] 0x08 = none ∧
      spec_first_matching_window (frameOp07 ++ frameOp08) 0x08 =
        some frameOp08 := by decide

/-- C3: the checksum equals `(0x55 − sum(b) mod 256) mod 256`, always lies
in `[0, 255]`; `pack17` of a 16-byte payload is that payload plus the
checksum byte (17 bytes, byte 16 = checksum of payload bytes 0..15), and
`pack17` of any other length fails producing no frame. -/
theorem checksum_pack17_spec (b payload : List Nat) :
    ((checksum_0x55 b : Int) = ((0x55 : Int) - (b.sum : Int) % 256) % 256)
    ∧ checksum_0x55 b ≤ 255
    ∧ (payload.length = 16 →
        pack17 payload = some (payload ++ [checksum_0x55 payload]) ∧
        ∀ fr, pack17 payload = some fr →
          fr.length = 17 ∧ fr.getD 16 0 = checksum_0x55 (payload.take 16))
    ∧ (payload.length ≠ 16 → pack17 payload = none) := by
  have h256 : (0 : Int) < 256 := by norm_num
  have hnn : (0 : Int) ≤ ((0x55 : Int) - ((b.sum : Int) % 256)) % 256 :=
    Int.emod_nonneg _ (by norm_num)
  refine ⟨?_, ?_, ?_, ?_⟩
  · exact Int.toNat_of_nonneg hnn
  · have hlt : ((0x55 : Int) - ((b.sum : Int) % 256)) % 256 < 256 :=
      Int.emod_lt_of_pos _ h256
    have h : (checksum_0x55 b : Int) ≤ 255 := by
      unfold checksum_0x55
      rw [Int.toNat_of_nonneg hnn]; omega
    exact_mod_cast h
  · intro hlen
    constructor
    · unfold pack17; rw [if_neg (by omega)]
    · intro fr hfr
      unfold pack17 at hfr
      rw [if_neg (by omega)] at hfr
      have hfr' : payload ++ [checksum_0x55 payload] = fr :=
        Option.some_inj.mp hfr
      subst hfr'
      constructor
      · simp [hlen]
      · have ht : payload.take 16 = payload := List.take_of_length_le (by omega)
        rw [ht, List.getD_eq_getElem?_getD,
          List.getElem?_append_right (by omega), hlen]
        simp
  · intro hlen
    unfold pack17; rw [if_pos hlen]

/-- Concrete instantiation of `checksum_pack17_spec` discharging both
length hypotheses. -/
theorem checksum_pack17_spec_witness :
    pack17 (List.replicate 16 0) =
        some (List.replicate 16 0 ++ [checksum_0x55 (List.replicate 16 0)]) ∧
      pack17 [1] = none :=
  ⟨((checksum_pack17_spec [] (List.replicate 16 0)).2.2.1 (by decide)).1,
   (checksum_pack17_spec [] [1]).2.2.2 (by decide)⟩

lemma writeBytes_length : ∀ (data l : List Nat) (off : Nat),
    (writeBytes l off data).length = l.length
  | [], _, _ => rfl
  | b :: rest, l, off => by
    simp only [writeBytes]
    rw [writeBytes_length rest (l.set off b) (off + 1), List.length_set]

lemma writeBytes_append_cons : ∀ (data A B : List Nat) (off : Nat),
    off = A.length → data.length ≤ B.length →
    writeBytes (A ++ B) off data = A ++ data ++ B.drop data.length
  | [], A, B, off, _, _ => by simp [writeBytes]
  | b :: rest, A, B, off, hoff, hlen => by
    rcases B with - | ⟨b0, B'⟩
    · simp at hlen
    simp only [writeBytes]
    have hset : (A ++ b0 :: B').set off b = (A ++ [b]) ++ B' := by
      rw [List.set_append_right _ _ (by omega), hoff]
      simp
    rw [hset,
      writeBytes_append_cons rest (A ++ [b]) B' (off + 1)
        (by simp [hoff]) (by simp at hlen ⊢; omega)]
    simp

lemma writeBytes_eq_append (l data : List Nat) (off : Nat)
    (h : off + data.length ≤ l.length) :
    writeBytes l off data = l.take off ++ data ++ l.drop (off + data.length) := by
  have hlt : (l.take off).length = off := by
    rw [List.length_take]; omega
  have h1 : writeBytes l off data =
      l.take off ++ data ++ (l.drop off).drop data.length := by
    conv_lhs => rw [← List.take_append_drop off l]
    rw [writeBytes_append_cons data (l.take off) (l.drop off) off hlt.symm
      (by rw [List.length_drop]; omega)]
  rw [h1, List.drop_drop, Nat.add_comm]

lemma getD3_head (A B C T : List Nat) (n d : Nat) (h : n < A.length) :
    (((A ++ B) ++ C) ++ T).getD n d = A.getD n d := by
  rw [List.getD_append _ _ _ _ (by simp; omega),
    List.getD_append _ _ _ _ (by simp; omega),
    List.getD_append _ _ _ _ h]

lemma getD3_data (A B C T : List Nat) (i d : Nat) (hA : A.length = 6)
    (hi : i < B.length) :
    (((A ++ B) ++ C) ++ T).getD (6 + i) d = B.getD i d := by
  rw [List.getD_append _ _ _ _ (by simp [hA]; omega),
    List.getD_append _ _ _ _ (by simp [hA]; omega),
    List.getD_append_right _ _ _ _ (by rw [hA]; omega), hA,
    show 6 + i - 6 = i by omega]

lemma getD3_third (A B C T : List Nat) (j d : Nat) (hA : A.length = 6)
    (h1 : 6 + B.length ≤ j) (h2 : j < 6 + B.length + C.length) :
    (((A ++ B) ++ C) ++ T).getD j d = C.getD (j - 6 - B.length) d := by
  rw [List.getD_append _ _ _ _ (by simp [hA]; omega),
    List.getD_append_right _ _ _ _ (by simp [hA]; omega)]
  congr 1
  simp [hA]
  omega

/-- The checked-write payload, fully explicit, for data within the 9-byte
bound. -/
lemma cmd_write_checked_eq (addr : Nat) (data : List Nat)
    (h : data.length ≤ 9) :
    ∃ c : Nat,
      cmd_write_0807_checked addr data =
        some ((([0x08, 0x07, 0, (addr >>> 8) % 256, addr % 256,
                data.length + 1] ++ data) ++
              (checksum_0x55 data :: List.replicate (9 - data.length) 0))
            ++ [c]) := by
  unfold cmd_write_0807_checked
  rw [if_neg (by omega)]
  dsimp only
  have hcnt : (data.length + 1) % 256 = data.length + 1 :=
    Nat.mod_eq_of_lt (by omega)
  have hp5 : (((((List.replicate 16 (0:Nat)).set 0 0x08).set 1 0x07).set 3
      ((addr >>> 8) % 256)).set 4 (addr % 256)).set 5 ((data.length + 1) % 256) =
      [0x08, 0x07, 0, (addr >>> 8) % 256, addr % 256, data.length + 1] ++
        List.replicate 10 0 := by
    rw [hcnt]; rfl
  rw [hp5,
    writeBytes_append_cons data _ _ 6 (by simp)
      (by simp only [List.length_replicate]; omega),
    List.drop_replicate]
  have hrepl : List.replicate (10 - data.length) (0:Nat) =
      0 :: List.replicate (9 - data.length) 0 := by
    rw [show 10 - data.length = (9 - data.length) + 1 by omega,
      List.replicate_succ]
  have hset : (([0x08, 0x07, 0, (addr >>> 8) % 256, addr % 256,
        data.length + 1] ++ data) ++ List.replicate (10 - data.length) 0).set
      (6 + data.length) (checksum_0x55 data) =
      ([0x08, 0x07, 0, (addr >>> 8) % 256, addr % 256,
        data.length + 1] ++ data) ++
        (checksum_0x55 data :: List.replicate (9 - data.length) 0) := by
    rw [List.set_append_right _ _
        (by simp only [List.length_append, List.length_cons,
          List.length_nil]; omega),
      show 6 + data.length -
        ([0x08, 0x07, (0:Nat), (addr >>> 8) % 256, addr % 256,
          data.length + 1] ++ data).length = 0 by
        simp only [List.length_append, List.length_cons, List.length_nil]
        omega,
      hrepl]
    rfl
  rw [hset]
  unfold pack17
  rw [if_neg (by
    simp only [ne_eq, List.length_append, List.length_cons, List.length_nil,
      List.length_replicate]
    omega)]
  exact ⟨_, rfl⟩

/-- The raw-write payload, fully explicit, for data within the 10-byte
bound. -/
lemma cmd_write_raw_eq (addr : Nat) (data : List Nat)
    (h : data.length ≤ 10) :
    ∃ c : Nat,
      cmd_write_0807_raw addr data =
        some ((([0x08, 0x07, 0, (addr >>> 8) % 256, addr % 256,
                data.length % 256] ++ data) ++
              List.replicate (10 - data.length) 0) ++ [c]) := by
  unfold cmd_write_0807_raw
  rw [if_neg (by omega)]
  dsimp only
  have hp5 : (((((List.replicate 16 (0:Nat)).set 0 0x08).set 1 0x07).set 3
      ((addr >>> 8) % 256)).set 4 (addr % 256)).set 5 (data.length % 256) =
      [0x08, 0x07, 0, (addr >>> 8) % 256, addr % 256, data.length % 256] ++
        List.replicate 10 0 := rfl
  rw [hp5,
    writeBytes_append_cons data _ _ 6 (by simp)
      (by simp only [List.length_replicate]; omega),
    List.drop_replicate]
  unfold pack17
  rw [if_neg (by
    simp only [ne_eq, List.length_append, List.length_cons, List.length_nil,
      List.length_replicate]
    omega)]
  exact ⟨_, rfl⟩

/-- C4: oversized data (more than 9 bytes checked, more than 10 raw) makes
the encoder fail before any I/O — the transport sees zero frames and the
state is untouched; within the bound, the checked frame's length field is
`len(data) + 1` with `checksum_0x55(data)` inline directly after the data,
while the raw frame's length field is exactly `len(data)` with no inline
checksum (the payload after the data is zero-filled). -/
theorem write_payload_bounds_spec (addr : Nat) (data : List Nat)
    (tr : Transceive) (st : Backend) (now : ℚ) :
    (9 < data.length →
      cmd_write_0807_checked addr data = none ∧
      write_checked tr st now addr data = (none, []))
    ∧ (10 < data.length →
      cmd_write_0807_raw addr data = none ∧
      write_raw tr st now addr data = (none, []))
    ∧ (data.length ≤ 9 → ∀ fr, cmd_write_0807_checked addr data = some fr →
        fr.getD 5 0 = data.length + 1 ∧
        fr.getD (6 + data.length) 0 = checksum_0x55 data ∧
        ∀ i, i < data.length → fr.getD (6 + i) 0 = data.getD i 0)
    ∧ (data.length ≤ 10 → ∀ fr, cmd_write_0807_raw addr data = some fr →
        fr.getD 5 0 = data.length ∧
        (∀ i, i < data.length → fr.getD (6 + i) 0 = data.getD i 0) ∧
        ∀ j, 6 + data.length ≤ j → j ≤ 15 → fr.getD j 0 = 0) := by
  refine ⟨?_, ?_, ?_, ?_⟩
  · intro h
    have henc : cmd_write_0807_checked addr data = none := by
      unfold cmd_write_0807_checked; rw [if_pos (by omega)]
    refine ⟨henc, ?_⟩
    unfold write_checked
    by_cases hc : st.connected = false
    · rw [if_pos hc]
    · rw [if_neg hc, henc]
  · intro h
    have henc : cmd_write_0807_raw addr data = none := by
      unfold cmd_write_0807_raw; rw [if_pos (by omega)]
    refine ⟨henc, ?_⟩
    unfold write_raw
    by_cases hc : st.connected = false
    · rw [if_pos hc]
    · rw [if_neg hc, henc]
  · intro h fr hfr
    rcases cmd_write_checked_eq addr data h with ⟨c, hc⟩
    rw [hc] at hfr
    have hfr' := Option.some_inj.mp hfr
    subst hfr'
    refine ⟨?_, ?_, ?_⟩
    · rw [getD3_head _ _ _ _ 5 0 (by simp)]
      rfl
    · rw [getD3_third _ _ _ _ (6 + data.length) 0 (by simp)
        (Nat.le_refl _) (by simp),
        show 6 + data.length - 6 - data.length = 0 by omega]
      rfl
    · intro i hi
      exact getD3_data _ _ _ _ i 0 (by simp) hi
  · intro h fr hfr
    rcases cmd_write_raw_eq addr data h with ⟨c, hc⟩
    rw [hc] at hfr
    have hfr' := Option.some_inj.mp hfr
    subst hfr'
    refine ⟨?_, ?_, ?_⟩
    · rw [getD3_head _ _ _ _ 5 0 (by simp)]
      show data.length % 256 = data.length
      exact Nat.mod_eq_of_lt (by omega)
    · intro i hi
      exact getD3_data _ _ _ _ i 0 (by simp) hi
    · intro j hj1 hj2
      rw [getD3_third _ _ _ _ j 0 (by simp) hj1 (by simp; omega),
        List.getD_eq_getElem?_getD, List.getElem?_replicate,
        if_pos (by omega)]
      rfl
/-- Concrete instantiation of `write_payload_bounds_spec`: a 10-byte
checked write and an 11-byte raw write fail with nothing transmitted, and
a 2-byte checked write gets length field 3. -/
theorem write_payload_bounds_spec_witness :
    (cmd_write_0807_checked 0 (List.replicate 10 1) = none ∧
      write_checked trSilent (initBackend true) 0 0 (List.replicate 10 1) =
        (none, [])) ∧
    (cmd_write_0807_raw 0 (List.replicate 11 1) = none ∧
      write_raw trSilent (initBackend true) 0 0 (List.replicate 11 1) =
        (none, [])) ∧
    ∀ fr, cmd_write_0807_checked 0 [4, 5] = some fr → fr.getD 5 0 = 3 :=
  ⟨(write_payload_bounds_spec 0 (List.replicate 10 1) trSilent
      (initBackend true) 0).1 (by decide),
   (write_payload_bounds_spec 0 (List.replicate 11 1) trSilent
      (initBackend true) 0).2.1 (by decide),
   fun fr hfr =>
     ((write_payload_bounds_spec 0 [4, 5] trSilent
        (initBackend true) 0).2.2.1 (by decide) fr hfr).1⟩

/-- C6: `dpi_to_raw` quantizes to `clamp(round(dpi/100), 1, 255)` (the
source's Python `round`, half to even): the three pinned values hold, the
raw value always lies in `[1, 255]`, and the decoded value `raw * 100` is
a multiple of 100 inside `[100, 25500]`. -/
theorem dpi_quantization_spec (dpi : Int) :
    dpi_to_raw 50 = 1 ∧ dpi_to_raw 25500 = 255 ∧ dpi_to_raw 0 = 1 ∧
    1 ≤ dpi_to_raw dpi ∧ dpi_to_raw dpi ≤ 255 ∧
    dpi_to_raw dpi = max 1 (min 255 (pyRound ((dpi : ℚ) / 100))) ∧
    dpi_to_raw dpi * 100 % 100 = 0 ∧
    100 ≤ dpi_to_raw dpi * 100 ∧ dpi_to_raw dpi * 100 ≤ 25500 := by
  have h1 : 1 ≤ dpi_to_raw dpi := le_max_left _ _
  have h2 : dpi_to_raw dpi ≤ 255 :=
    max_le (by norm_num) (min_le_left _ _)
  refine ⟨?_, ?_, ?_, h1, h2, rfl, by omega, by omega, by omega⟩
  · unfold dpi_to_raw pyRound
    norm_num
  · unfold dpi_to_raw pyRound
    norm_num
  · unfold dpi_to_raw pyRound
    norm_num

lemma macroEventsGo_eq_take (press inter : Nat) (cs : List Char) :
    ∀ count : Nat, count % 2 = 0 → count < 70 →
    macroEventsGo press inter cs count =
      (spec_event_pairs press inter cs).take (70 - count) := by
  induction cs with
  | nil =>
    intro count h1 h2
    simp [macroEventsGo, spec_event_pairs]
  | cons ch rest ih =>
    intro count h1 h2
    rcases hk : hid_keycode_for_char ch with - | ⟨keycode, modifier⟩
    · simp only [macroEventsGo, spec_event_pairs, hk, List.nil_append]
      exact ih count h1 h2
    · simp only [macroEventsGo, spec_event_pairs, hk]
      by_cases hbreak : 70 ≤ count + 2
      · rw [if_pos hbreak, show 70 - count = 2 from by omega,
          List.take_append_eq_append_take]
        simp
      · rw [if_neg hbreak, ih (count + 2) (by omega) (by omega)]
        obtain ⟨k, hk70⟩ : ∃ k, 70 - count = k + 2 := ⟨70 - count - 2, by omega⟩
        rw [hk70, List.take_append_eq_append_take, List.take_succ_cons,
          List.take_succ_cons, List.take_nil]
        congr 1
        congr 1
        simp only [List.length_cons, List.length_nil]
        omega

lemma macroEvents_eq_take (text : List Char) (press inter : Nat) :
    macroEvents text press inter =
      (spec_event_pairs press inter text).take 70 := by
  have h := macroEventsGo_eq_take press inter text 0 rfl (by omega)
  rw [Nat.sub_zero] at h
  exact h

lemma macroEvents_length_le (text : List Char) (press inter : Nat) :
    (macroEvents text press inter).length ≤ 70 := by
  rw [macroEvents_eq_take, List.length_take]
  omega

lemma flatten_eventBytes_length (events : List (Nat × Nat × Nat × Nat)) :
    ((events.map eventBytes).flatten).length = 5 * events.length := by
  induction events with
  | nil => rfl
  | cons e es ih =>
    rcases e with ⟨a, b, c, d⟩
    simp only [List.map_cons, List.flatten_cons, List.length_append, ih,
      eventBytes, List.length_cons, List.length_nil]
    omega

lemma set_eq_writeBytes (l : List Nat) (i v : Nat) :
    l.set i v = writeBytes l i [v] := rfl

lemma getD_writeBytes_lt (l data : List Nat) (off j d : Nat)
    (h : off + data.length ≤ l.length) (hj : j < off) :
    (writeBytes l off data).getD j d = l.getD j d := by
  rw [writeBytes_eq_append l data off h,
    List.getD_append _ _ _ _ (by rw [List.length_append, List.length_take]; omega),
    List.getD_append _ _ _ _ (by rw [List.length_take]; omega),
    List.getD_eq_getElem?_getD, List.getElem?_take_of_lt hj,
    ← List.getD_eq_getElem?_getD]

lemma getD_writeBytes_in (l data : List Nat) (off i d : Nat)
    (h : off + data.length ≤ l.length) (hi : i < data.length) :
    (writeBytes l off data).getD (off + i) d = data.getD i d := by
  rw [writeBytes_eq_append l data off h,
    List.getD_append _ _ _ _
      (by rw [List.length_append, List.length_take]; omega),
    List.getD_append_right _ _ _ _ (by rw [List.length_take]; omega)]
  congr 1
  rw [List.length_take]
  omega

lemma getD_set_self (l : List Nat) (i v d : Nat) (h : i < l.length) :
    (l.set i v).getD i d = v := by
  rw [List.set_eq_take_cons_drop v h,
    List.getD_append_right _ _ _ _ (by rw [List.length_take]; omega),
    show i - (l.take i).length = 0 from by rw [List.length_take]; omega]
  rfl

/-- Rewriting one byte at position `i` does not change the slice
`[31, i)`. -/
lemma slice_set_outside (l : List Nat) (i v : Nat) (h31 : 31 ≤ i)
    (h : i < l.length) :
    ((l.set i v).drop 31).take (i - 31) = (l.drop 31).take (i - 31) := by
  rw [List.set_eq_take_cons_drop v h,
    List.drop_append_eq_append_drop,
    List.take_append_eq_append_take,
    show ((l.take i).drop 31).length = i - 31 from by
      rw [List.length_drop, List.length_take]; omega,
    Nat.sub_self, List.take_zero, List.append_nil,
    List.take_of_length_le (by rw [List.length_drop, List.length_take]; omega),
    List.drop_take]

/-- The four structural facts about the finished macro record that C2 and
C9 rely on: total length, event-count byte, checksum byte over the
composed region, and the verbatim event bytes. -/
lemma build_macro_structure (name text : List Char) (pd ikd : Int) :
    (build_macro_string_record name text pd ikd).length = 384
    ∧ (build_macro_string_record name text pd ikd).getD 31 0 =
        (macroEvents text (clamp16 pd) (clamp16 ikd)).length
    ∧ (build_macro_string_record name text pd ikd).getD
          (32 + 5 * (macroEvents text (clamp16 pd) (clamp16 ikd)).length) 0 =
        checksum_0x55
          (((build_macro_string_record name text pd ikd).drop 31).take
            (1 + 5 * (macroEvents text (clamp16 pd) (clamp16 ikd)).length))
    ∧ ∀ i, i < 5 * (macroEvents text (clamp16 pd) (clamp16 ikd)).length →
        (build_macro_string_record name text pd ikd).getD (32 + i) 0 =
          (((macroEvents text (clamp16 pd) (clamp16 ikd)).map
            eventBytes).flatten).getD i 0 := by
  have hev : (macroEvents text (clamp16 pd) (clamp16 ikd)).length ≤ 70 :=
    macroEvents_length_le _ _ _
  unfold build_macro_string_record
  dsimp only
  generalize hE : macroEvents text _ _ = events at hev ⊢
  generalize hN : (List.filterMap asciiIgnore name).take 29 = name_b
  have hnb : name_b.length ≤ 29 := by
    rw [← hN, List.length_take]; omega
  have hflat : ((events.map eventBytes).flatten).length = 5 * events.length :=
    flatten_eventBytes_length events
  have hL0 : (List.replicate MACRO_RECORD_LEN (0xFF : Nat)).length = 384 := by
    rw [List.length_replicate]; rfl
  have hL1 : ((List.replicate MACRO_RECORD_LEN (0xFF : Nat)).set 0
      name_b.length).length = 384 := by rw [List.length_set, hL0]
  have hL2 : (writeBytes ((List.replicate MACRO_RECORD_LEN (0xFF : Nat)).set 0
      name_b.length) 1 name_b).length = 384 := by
    rw [writeBytes_length, hL1]
  have hL3 : ((writeBytes ((List.replicate MACRO_RECORD_LEN (0xFF : Nat)).set 0
      name_b.length) 1 name_b).set 31 events.length).length = 384 := by
    rw [List.length_set, hL2]
  have hL4 : (writeBytes ((writeBytes ((List.replicate MACRO_RECORD_LEN
      (0xFF : Nat)).set 0 name_b.length) 1 name_b).set 31 events.length) 32
      ((events.map eventBytes).flatten)).length = 384 := by
    rw [writeBytes_length, hL3]
  refine ⟨?_, ?_, ?_, ?_⟩
  · rw [List.length_set, hL4]
  · rw [set_eq_writeBytes,
      getD_writeBytes_lt _ _ _ _ _ (by
        rw [hL4]
        simp only [List.length_cons, List.length_nil]
        omega) (by omega),
      getD_writeBytes_lt _ _ _ _ _ (by rw [hL3, hflat]; omega) (by omega),
      getD_set_self _ _ _ _ (by rw [hL2]; omega)]
  · rw [getD_set_self _ _ _ _ (by rw [hL4]; omega)]
    congr 1
    have hidx : 1 + 5 * events.length = 32 + 5 * events.length - 31 := by
      omega
    rw [hidx,
      slice_set_outside _ _ _ (by omega) (by rw [hL4]; omega)]
  · intro i hi
    rw [set_eq_writeBytes,
      getD_writeBytes_lt _ _ _ _ _ (by
        rw [hL4]
        simp only [List.length_cons, List.length_nil]
        omega) (by omega),
      getD_writeBytes_in _ _ _ _ _ (by rw [hL3, hflat]; omega)
        (by rw [hflat]; omega)]

/-- C2: the emitted event list is, in order, a press event (flag 0x80,
keycode, modifier, press-delay) then a release event (flag 0x40, same
keycode/modifier, inter-key delay, 0 on the final character) for each
mapped character — unmapped characters contribute nothing — truncated at
70 events; the event-count byte at offset 31 is the number of events; the
byte at the checksum index equals `checksum_0x55` over the region from the
event-count byte through the last event byte; the event bytes land
verbatim from offset 32.  Concretely, "hi" at press 20 / inter 30 gives
exactly 4 events with the final release delay 0, and 40 copies of 'a'
truncate to 70 events. -/
theorem macro_encoder_spec (name text : List Char) (pd ikd : Int) :
    macroEvents text (clamp16 pd) (clamp16 ikd) =
      (spec_event_pairs (clamp16 pd) (clamp16 ikd) text).take 70
    ∧ (build_macro_string_record name text pd ikd).getD 31 0 =
        (macroEvents text (clamp16 pd) (clamp16 ikd)).length
    ∧ (build_macro_string_record name text pd ikd).getD
          (32 + 5 * (macroEvents text (clamp16 pd) (clamp16 ikd)).length) 0 =
        checksum_0x55
          (((build_macro_string_record name text pd ikd).drop 31).take
            (1 + 5 * (macroEvents text (clamp16 pd) (clamp16 ikd)).length))
    ∧ (∀ i, i < 5 * (macroEvents text (clamp16 pd) (clamp16 ikd)).length →
        (build_macro_string_record name text pd ikd).getD (32 + i) 0 =
          (((macroEvents text (clamp16 pd) (clamp16 ikd)).map
            eventBytes).flatten).getD i 0)
    ∧ macroEvents ['h', 'i'] (clamp16 20) (clamp16 30) =
        [(0x80, 0x0B, 0x00, 20), (0x40, 0x0B, 0x00, 30),
         (0x80, 0x0C, 0x00, 20), (0x40, 0x0C, 0x00, 0)]
    ∧ (macroEvents (List.replicate 40 'a') (clamp16 20)
        (clamp16 30)).length = 70 :=
  ⟨macroEvents_eq_take _ _ _,
   (build_macro_structure name text pd ikd).2.1,
   (build_macro_structure name text pd ikd).2.2.1,
   (build_macro_structure name text pd ikd).2.2.2,
   by decide, by decide⟩

/-- Concrete instantiation of `macro_encoder_spec`'s event-byte clause at
index 0 for the "hi" macro. -/
theorem macro_encoder_spec_witness :
    (build_macro_string_record [] ['h', 'i'] 20 30).getD (32 + 0) 0 =
      (((macroEvents ['h', 'i'] (clamp16 20) (clamp16 30)).map
        eventBytes).flatten).getD 0 0 :=
  (macro_encoder_spec [] ['h', 'i'] 20 30).2.2.2.1 0 (by decide)

/-- C9: `build_macro_string_record` is total over all inputs and always
returns exactly 384 bytes; the encoded name is truncated to at most 29
bytes, at most 70 events are emitted, and the checksum byte index
`32 + 5 * events` never exceeds the last buffer index 383. -/
theorem macro_record_totality (name text : List Char) (pd ikd : Int) :
    (build_macro_string_record name text pd ikd).length = 384
    ∧ ((name.filterMap asciiIgnore).take 29).length ≤ 29
    ∧ (macroEvents text (clamp16 pd) (clamp16 ikd)).length ≤ 70
    ∧ 32 + 5 * (macroEvents text (clamp16 pd) (clamp16 ikd)).length ≤ 383 := by
  refine ⟨(build_macro_structure name text pd ikd).1, ?_,
    macroEvents_length_le _ _ _, ?_⟩
  · rw [List.length_take]; omega
  · have h := macroEvents_length_le text (clamp16 pd) (clamp16 ikd)
    omega

lemma cmd_read_flash_isSome (addr count : Nat) :
    ∃ f, cmd_read_flash addr count = some f := by
  unfold cmd_read_flash pack17
  dsimp only
  rw [if_neg (by simp)]
  exact ⟨_, rfl⟩

lemma getD_writeBytes_ge (l data : List Nat) (off j d : Nat)
    (h : off + data.length ≤ l.length) (hj : off + data.length ≤ j) :
    (writeBytes l off data).getD j d = l.getD j d := by
  rw [writeBytes_eq_append l data off h,
    List.getD_append_right _ _ _ _
      (by rw [List.length_append, List.length_take]; omega),
    List.getD_eq_getElem?_getD, List.getElem?_drop,
    ← List.getD_eq_getElem?_getD]
  congr 1
  rw [List.length_append, List.length_take]
  omega

lemma getD_set_ne (l : List Nat) (i j v d : Nat) (hij : j ≠ i)
    (hi : i < l.length) :
    (l.set i v).getD j d = l.getD j d := by
  rcases Nat.lt_or_ge j i with hj | hj
  · rw [set_eq_writeBytes,
      getD_writeBytes_lt _ _ _ _ _
        (by simp only [List.length_cons, List.length_nil]; omega) hj]
  · rw [set_eq_writeBytes,
      getD_writeBytes_ge _ _ _ _ _
        (by simp only [List.length_cons, List.length_nil]; omega)
        (by simp only [List.length_cons, List.length_nil]; omega)]

lemma getD_take_lt (l : List Nat) (n j d : Nat) (hj : j < n) :
    (l.take n).getD j d = l.getD j d := by
  rw [List.getD_eq_getElem?_getD, List.getElem?_take_of_lt hj,
    ← List.getD_eq_getElem?_getD]

/-- C8: `is_sleeping` is false whenever no device is connected; it reports
true only while connected and only once at least `SLEEP_TIMEOUT` (5s) have
elapsed since the last successful reception (the code requires strictly
more); and immediately after a successful transaction (here a battery
read, which stamps `last_rx_time` with the current instant) it is false.
It is a pure predicate on the session state: evaluating it changes
nothing, so it can never trigger a disconnection. -/
theorem is_sleeping_spec (tr : Transceive) (st : Backend) (now now2 : ℚ) :
    (st.connected = false → is_sleeping st now2 = false)
    ∧ (is_sleeping st now2 = true →
        st.connected = true ∧ SLEEP_TIMEOUT ≤ now2 - st.last_rx_time)
    ∧ (∀ st2 fs, st.connected = true →
        read_battery tr st now = (some (true, st2), fs) →
        is_sleeping st2 now = false) := by
  refine ⟨?_, ?_, ?_⟩
  · intro h
    unfold is_sleeping
    rw [h]
    rfl
  · intro h
    unfold is_sleeping at h
    rw [Bool.and_eq_true] at h
    obtain ⟨h1, h2⟩ := h
    exact ⟨h1, le_of_lt (of_decide_eq_true h2)⟩
  · intro st2 fs hconn hrb
    unfold read_battery at hrb
    rw [if_neg (by rw [hconn]; simp)] at hrb
    rcases hcb : cmd_read_battery with - | frB
    · rw [hcb] at hrb
      simp at hrb
    · rw [hcb] at hrb
      dsimp only at hrb
      rcases htr : tr frB 0x04 with - | rx
      · rw [htr] at hrb
        simp at hrb
      · rw [htr] at hrb
        dsimp only at hrb
        have h1 := congrArg Prod.fst hrb
        simp only [Option.some.injEq, Prod.mk.injEq, true_and] at h1
        rw [← h1]
        show (st.connected && decide (now - now > SLEEP_TIMEOUT)) = false
        rw [hconn, sub_self]
        simp only [Bool.true_and, decide_eq_false_iff_not, SLEEP_TIMEOUT]
        norm_num

/-- Concrete instantiation of `is_sleeping_spec`: disconnected is never
sleeping; a connected session 10s after its last reception is sleeping
only because at least 5s elapsed; and right after a successful battery
transaction it is not sleeping. -/
theorem is_sleeping_spec_witness :
    is_sleeping (initBackend false) 10 = false
    ∧ ((initBackend true).connected = true ∧
        SLEEP_TIMEOUT ≤ 10 - (initBackend true).last_rx_time)
    ∧ is_sleeping
        { initBackend true with last_rx_time := 0, battery_percent := 0 }
        0 = false :=
  ⟨(is_sleeping_spec trAllZero (initBackend false) 0 10).1 rfl,
   (is_sleeping_spec trAllZero (initBackend true) 0 10).2.1 (by
     unfold is_sleeping initBackend SLEEP_TIMEOUT
     norm_num),
   (is_sleeping_spec trAllZero (initBackend true) 0 10).2.2
     { initBackend true with last_rx_time := 0, battery_percent := 0 }
     [[8, 4, 0, 0, 0, 0, 0, 0, 0, 0, 0, 0, 0, 0, 0, 0, 73]]
     rfl (by
       unfold read_battery trAllZero cmd_read_battery pack17 initBackend
       norm_num
       decide)⟩

/-- C10: a successful set-DPI caches the requested `dpi` verbatim while
the frame written to the device carries the quantized raw byte twice
(payload bytes 6 and 7); consequently, whenever `dpi` is not a multiple of
100, the cached value differs from the device-decoded value
`dpi_to_raw(dpi) * 100` until the next read. -/
theorem set_dpi_cache_spec (tr : Transceive) (st : Backend) (now : ℚ)
    (dpi : Int) (w r : List Nat) :
    st.connected = true →
    cmd_write_0807_checked DPI_LEVEL_BASE_ADDR
      [(dpi_to_raw dpi).toNat, (dpi_to_raw dpi).toNat, 0x00] = some w →
    tr w 0x07 = some r →
    (set_dpi tr st now dpi =
        ((true, { st with last_rx_time := now, dpi_value := dpi }), [w])
      ∧ w.getD 6 0 = (dpi_to_raw dpi).toNat
      ∧ w.getD 7 0 = (dpi_to_raw dpi).toNat
      ∧ (dpi % 100 ≠ 0 → dpi ≠ dpi_to_raw dpi * 100)) := by
  intro hconn hw htr
  refine ⟨?_, ?_, ?_, ?_⟩
  · unfold set_dpi write_checked
    dsimp only
    rw [if_neg (by rw [hconn]; simp), hw]
    dsimp only
    rw [htr]
    dsimp only
    rw [if_pos rfl]
  · rcases cmd_write_checked_eq DPI_LEVEL_BASE_ADDR
        [(dpi_to_raw dpi).toNat, (dpi_to_raw dpi).toNat, 0x00]
        (by simp) with ⟨c, hc⟩
    rw [hw] at hc
    have hwe := Option.some_inj.mp hc
    subst hwe
    simp
  · rcases cmd_write_checked_eq DPI_LEVEL_BASE_ADDR
        [(dpi_to_raw dpi).toNat, (dpi_to_raw dpi).toNat, 0x00]
        (by simp) with ⟨c, hc⟩
    rw [hw] at hc
    have hwe := Option.some_inj.mp hc
    subst hwe
    simp
  · intro h100 heq
    omega

lemma dpi_to_raw_150 : dpi_to_raw 150 = 2 := by
  unfold dpi_to_raw pyRound
  norm_num

/-- Concrete instantiation of `set_dpi_cache_spec` at dpi = 150: the cache
stores 150 while the device is sent the raw byte 2 (device-decoded value
200). -/
theorem set_dpi_cache_spec_witness :
    set_dpi trAllZero (initBackend true) 0 150 =
      ((true, { initBackend true with last_rx_time := 0, dpi_value := 150 }),
       [[8, 7, 0, 0, 12, 4, 2, 2, 0, 81, 0, 0, 0, 0, 0, 0, 225]]) :=
  (set_dpi_cache_spec trAllZero (initBackend true) 0 150
    [8, 7, 0, 0, 12, 4, 2, 2, 0, 81, 0, 0, 0, 0, 0, 0, 225]
    (List.replicate 17 0) rfl (by rw [dpi_to_raw_150]; decide) rfl).1

/-- C7: setting LED brightness/speed is read-modify-write: exactly three
frames go to the transport in order — the 10-byte config fetch, the
checked write-back of the 6 updated config bytes, and the separate 1-byte
apply trigger (0x01) as a second write transaction; the reported outcome
is true exactly when both write transactions got a reply; an argument of 0
leaves the corresponding stored byte unchanged (in particular speed 0
keeps the stored speed byte), and bytes other than the requested fields
are never overwritten. -/
theorem set_led_rmw_spec (tr : Transceive) (st : Backend) (now : ℚ)
    (b s : Int) (rdf rx w1 w2 : List Nat) :
    st.connected = true →
    cmd_read_flash LED_CONFIG_ADDR 10 = some rdf →
    tr rdf 0x08 = some rx →
    rx.length = 17 →
    cmd_write_0807_checked LED_CONFIG_ADDR
      (led_cfg_update ((rx.drop 6).take 10) b s) = some w1 →
    cmd_write_0807_checked LED_APPLY_ADDR [0x01] = some w2 →
    ((set_led_brightness_speed tr st now b s).2 = [rdf, w1, w2]
    ∧ (set_led_brightness_speed tr st now b s).1.1 =
        ((tr w1 0x07).isSome && (tr w2 0x07).isSome)
    ∧ (s = 0 → (led_cfg_update ((rx.drop 6).take 10) b s).getD 4 0 =
        ((rx.drop 6).take 10).getD 4 0)
    ∧ (b = 0 → (led_cfg_update ((rx.drop 6).take 10) b s).getD 5 0 =
        ((rx.drop 6).take 10).getD 5 0)
    ∧ (∀ j, j < 6 → j ≠ 4 → j ≠ 5 →
        (led_cfg_update ((rx.drop 6).take 10) b s).getD j 0 =
        ((rx.drop 6).take 10).getD j 0)) := by
  intro hconn hcmd htr hrx hw1 hw2
  have hlen10 : ((rx.drop 6).take 10).length = 10 := by
    simp [List.length_take, List.length_drop, hrx]
  have hlen6 : (((rx.drop 6).take 10).take 6).length = 6 := by
    rw [List.length_take, hlen10]
    omega
  have hcompute :
      set_led_brightness_speed tr st now b s =
        (((tr w1 0x07).isSome && (tr w2 0x07).isSome,
          if (tr w1 0x07).isSome && (tr w2 0x07).isSome then
            { st with
              last_rx_time := now
              led_speed := (led_cfg_update ((rx.drop 6).take 10) b s).getD 4 0 + 1
              led_brightness :=
                (led_cfg_update ((rx.drop 6).take 10) b s).getD 5 0 + 1 }
          else { st with last_rx_time := now }),
         [rdf, w1, w2]) := by
    unfold set_led_brightness_speed read_flash write_checked
    rw [if_neg (by rw [hconn]; simp), hcmd]
    dsimp only
    rw [htr]
    dsimp only
    rw [if_neg (by rw [hconn]; simp), hw1]
    dsimp only
    rcases htr1 : tr w1 0x07 with - | r1
    · dsimp only
      rw [if_neg (by rw [hconn]; simp), hw2]
      dsimp only
      rcases htr2 : tr w2 0x07 with - | r2
      · rfl
      · rfl
    · dsimp only
      rw [if_neg (by rw [hconn]; simp), hw2]
      dsimp only
      rcases htr2 : tr w2 0x07 with - | r2
      · rfl
      · rfl
  refine ⟨?_, ?_, ?_, ?_, ?_⟩
  · rw [hcompute]
  · rw [hcompute]
  · intro hs
    have hs' : ¬(s ≠ 0) := by simp [hs]
    unfold led_cfg_update
    dsimp only
    rw [if_neg hs']
    by_cases hb : b ≠ 0
    · rw [if_pos hb,
        getD_set_ne _ _ _ _ _ (by omega) (by rw [hlen6]; omega),
        getD_take_lt _ _ _ _ (by omega)]
    · rw [if_neg hb, getD_take_lt _ _ _ _ (by omega)]
  · intro hb
    have hb' : ¬(b ≠ 0) := by simp [hb]
    unfold led_cfg_update
    dsimp only
    rw [if_neg hb']
    by_cases hs : s ≠ 0
    · rw [if_pos hs,
        getD_set_ne _ _ _ _ _ (by omega) (by rw [hlen6]; omega),
        getD_take_lt _ _ _ _ (by omega)]
    · rw [if_neg hs, getD_take_lt _ _ _ _ (by omega)]
  · intro j hj hj4 hj5
    unfold led_cfg_update
    dsimp only
    by_cases hb : b ≠ 0 <;> by_cases hs : s ≠ 0
    · rw [if_pos hb, if_pos hs,
        getD_set_ne _ _ _ _ _ (by omega)
          (by rw [List.length_set, hlen6]; omega),
        getD_set_ne _ _ _ _ _ (by omega) (by rw [hlen6]; omega),
        getD_take_lt _ _ _ _ (by omega)]
    · rw [if_pos hb, if_neg hs,
        getD_set_ne _ _ _ _ _ (by omega) (by rw [hlen6]; omega),
        getD_take_lt _ _ _ _ (by omega)]
    · rw [if_neg hb, if_pos hs,
        getD_set_ne _ _ _ _ _ (by omega) (by rw [hlen6]; omega),
        getD_take_lt _ _ _ _ (by omega)]
    · rw [if_neg hb, if_neg hs, getD_take_lt _ _ _ _ (by omega)]

/-- Concrete instantiation of `set_led_rmw_spec` against the fake
transport: brightness 5, speed 0 sends the fetch, the 6-byte write-back
(speed byte still 0) and the apply trigger, in that order. -/
theorem set_led_rmw_spec_witness :
    (set_led_brightness_speed trAllZero (initBackend true) 0 5 0).2 =
      [[8, 8, 0, 0, 160, 10, 0, 0, 0, 0, 0, 0, 0, 0, 0, 0, 155],
       [8, 7, 0, 0, 160, 7, 0, 0, 0, 0, 0, 4, 81, 0, 0, 0, 74],
       [8, 7, 0, 0, 167, 2, 1, 84, 0, 0, 0, 0, 0, 0, 0, 0, 72]] :=
  (set_led_rmw_spec trAllZero (initBackend true) 0 5 0
    [8, 8, 0, 0, 160, 10, 0, 0, 0, 0, 0, 0, 0, 0, 0, 0, 155]
    (List.replicate 17 0)
    [8, 7, 0, 0, 160, 7, 0, 0, 0, 0, 0, 4, 81, 0, 0, 0, 74]
    [8, 7, 0, 0, 167, 2, 1, 84, 0, 0, 0, 0, 0, 0, 0, 0, 72]
    rfl (by decide) rfl (by decide) (by decide) (by decide)).1

lemma read_bool_state (tr : Transceive) (st : Backend) (now : ℚ) (addr : Nat)
    (hconn : st.connected = true) :
    ∃ v st1 fs, read_bool tr st now addr = (some (v, st1), fs) ∧
      (st1 = st ∨ st1 = { st with last_rx_time := now }) := by
  unfold read_bool read_flash
  rw [if_neg (by rw [hconn]; simp)]
  rcases cmd_read_flash_isSome addr 2 with ⟨f, hf⟩
  rw [hf]
  dsimp only
  rcases htr : tr f 0x08 with - | rx
  · exact ⟨none, st, [f], rfl, Or.inl rfl⟩
  · dsimp only
    by_cases hbb : ((rx.drop 6).take 2).isEmpty = true
    · rw [if_pos hbb]
      exact ⟨none, _, [f], rfl, Or.inr rfl⟩
    · rw [if_neg hbb]
      by_cases hchk : ((rx.drop 6).take 2).getD 1 0 ≠
          checksum_0x55 [((rx.drop 6).take 2).getD 0 0]
      · rw [if_pos hchk]
        exact ⟨none, _, [f], rfl, Or.inr rfl⟩
      · rw [if_neg hchk]
        exact ⟨some _, _, [f], rfl, Or.inr rfl⟩

lemma eqExceptRx_of_upd (st : Backend) (now : ℚ) :
    eqExceptRx { st with last_rx_time := now } st :=
  ⟨rfl, rfl, rfl, rfl, rfl, rfl, rfl, rfl, rfl, rfl, rfl, rfl, rfl, rfl⟩

lemma eqExceptRx_refl (st : Backend) : eqExceptRx st st :=
  ⟨rfl, rfl, rfl, rfl, rfl, rfl, rfl, rfl, rfl, rfl, rfl, rfl, rfl, rfl⟩

lemma eqExceptRx_trans (a b c : Backend) (h1 : eqExceptRx a b)
    (h2 : eqExceptRx b c) : eqExceptRx a c := by
  obtain ⟨e1, e2, e3, e4, e5, e6, e7, e8, e9, e10, e11, e12, e13, e14⟩ := h1
  obtain ⟨f1, f2, f3, f4, f5, f6, f7, f8, f9, f10, f11, f12, f13, f14⟩ := h2
  exact ⟨e1.trans f1, e2.trans f2, e3.trans f3, e4.trans f4, e5.trans f5,
    e6.trans f6, e7.trans f7, e8.trans f8, e9.trans f9, e10.trans f10,
    e11.trans f11, e12.trans f12, e13.trans f13, e14.trans f14⟩

lemma read_bool_eqExceptRx (tr : Transceive) (st : Backend) (now : ℚ)
    (addr : Nat) (hconn : st.connected = true) :
    ∃ v st1 fs, read_bool tr st now addr = (some (v, st1), fs) ∧
      eqExceptRx st1 st := by
  rcases read_bool_state tr st now addr hconn with ⟨v, st1, fs, heq, hor⟩
  refine ⟨v, st1, fs, heq, ?_⟩
  rcases hor with h | h
  · rw [h]; exact eqExceptRx_refl st
  · rw [h]; exact eqExceptRx_of_upd st now

/-- C5: a feature read whose reply record fails its inline checksum check
returns failure and leaves every cached feature field as it was.  For the
polling-rate and button-4 reads the final state is exactly the prior state
with only the reception timestamp refreshed; for the toggle read, a
corrupt ripple record forces a false result with all cached feature fields
(the three toggles included) unchanged. -/
theorem read_checksum_failure_local (tr : Transceive) (st : Backend)
    (now : ℚ) (f rx : List Nat) :
    (st.connected = true → cmd_read_flash POLLING_RATE_ADDR 2 = some f →
      tr f 0x08 = some rx → rx.length = 17 →
      ((rx.drop 6).take 2).getD 1 0 ≠
        checksum_0x55 [((rx.drop 6).take 2).getD 0 0] →
      read_polling_rate tr st now =
        (some (false, { st with last_rx_time := now }), [f]))
    ∧ (st.connected = true → cmd_read_flash RIPPLE_CONTROL_ADDR 2 = some f →
      tr f 0x08 = some rx → rx.length = 17 →
      ((rx.drop 6).take 2).getD 1 0 ≠
        checksum_0x55 [((rx.drop 6).take 2).getD 0 0] →
      ∃ stF fs, read_toggles tr st now = (some (false, stF), fs) ∧
        eqExceptRx stF st)
    ∧ (st.connected = true → cmd_read_flash BUTTON_MAP_ADDR 4 = some f →
      tr f 0x08 = some rx → rx.length = 17 →
      ((rx.drop 6).take 4).getD 3 0 ≠
        checksum_0x55 (((rx.drop 6).take 4).take 3) →
      read_btn4_binding tr st now =
        (some (false, { st with last_rx_time := now }), [f])) := by
  refine ⟨?_, ?_, ?_⟩
  · intro hconn hcmd htr hrx hchk
    have hlen2 : ((rx.drop 6).take 2).length = 2 := by
      simp [List.length_take, List.length_drop, hrx]
    have hbb : ¬(((rx.drop 6).take 2).isEmpty = true) := by
      rw [List.isEmpty_iff]
      intro hnil
      rw [hnil] at hlen2
      simp at hlen2
    unfold read_polling_rate read_flash
    rw [if_neg (by rw [hconn]; simp), hcmd]
    dsimp only
    rw [htr]
    dsimp only
    rw [if_neg hbb, if_pos hchk]
  · intro hconn hcmd htr hrx hchk
    have hlen2 : ((rx.drop 6).take 2).length = 2 := by
      simp [List.length_take, List.length_drop, hrx]
    have hbb : ¬(((rx.drop 6).take 2).isEmpty = true) := by
      rw [List.isEmpty_iff]
      intro hnil
      rw [hnil] at hlen2
      simp at hlen2
    have hb1 : read_bool tr st now RIPPLE_CONTROL_ADDR =
        (some (none, { st with last_rx_time := now }), [f]) := by
      unfold read_bool read_flash
      rw [if_neg (by rw [hconn]; simp), hcmd]
      dsimp only
      rw [htr]
      dsimp only
      rw [if_neg hbb, if_pos hchk]
    have hconn1 : ({ st with last_rx_time := now } : Backend).connected = true :=
      hconn
    rcases read_bool_eqExceptRx tr { st with last_rx_time := now } now
        ANGLE_SNAP_ADDR hconn1 with ⟨a, st2, fs2, hb2, he2⟩
    have hconn2 : st2.connected = true := by
      rw [he2.1]; exact hconn1
    rcases read_bool_eqExceptRx tr st2 now MOTION_SYNC_ADDR hconn2 with
      ⟨m, st3, fs3, hb3, he3⟩
    refine ⟨st3, [f] ++ fs2 ++ fs3, ?_, ?_⟩
    · unfold read_toggles
      rw [hb1]
      dsimp only
      rw [hb2]
      dsimp only
      rw [hb3]
    · exact eqExceptRx_trans st3 st2 st he3
        (eqExceptRx_trans st2 { st with last_rx_time := now } st he2
          (eqExceptRx_of_upd st now))
  · intro hconn hcmd htr hrx hchk
    have hlen4 : ((rx.drop 6).take 4).length = 4 := by
      simp [List.length_take, List.length_drop, hrx]
    have hbb : ¬(((rx.drop 6).take 4).isEmpty = true) := by
      rw [List.isEmpty_iff]
      intro hnil
      rw [hnil] at hlen4
      simp at hlen4
    unfold read_btn4_binding read_flash
    rw [if_neg (by rw [hconn]; simp), hcmd]
    dsimp only
    rw [htr]
    dsimp only
    rw [if_neg hbb, if_pos hchk]

/-- Concrete instantiation of `read_checksum_failure_local` against a fake
transport answering all-zero frames (whose 2-byte records always fail the
inline checksum): the polling read, the toggle read and the button-4 read
all fail with the cached feature fields intact. -/
theorem read_checksum_failure_local_witness :
    read_polling_rate trAllZero (initBackend true) 0 =
      (some (false, { initBackend true with last_rx_time := 0 }),
       [[8, 8, 0, 0, 0, 2, 0, 0, 0, 0, 0, 0, 0, 0, 0, 0, 67]])
    ∧ (∃ stF fs, read_toggles trAllZero (initBackend true) 0 =
        (some (false, stF), fs) ∧ eqExceptRx stF (initBackend true))
    ∧ read_btn4_binding trAllZero (initBackend true) 0 =
      (some (false, { initBackend true with last_rx_time := 0 }),
       [[8, 8, 0, 0, 112, 4, 0, 0, 0, 0, 0, 0, 0, 0, 0, 0, 209]]) :=
  ⟨(read_checksum_failure_local trAllZero (initBackend true) 0
      [8, 8, 0, 0, 0, 2, 0, 0, 0, 0, 0, 0, 0, 0, 0, 0, 67]
      (List.replicate 17 0)).1 rfl (by decide) rfl (by decide) (by decide),
   (read_checksum_failure_local trAllZero (initBackend true) 0
      [8, 8, 0, 0, 177, 2, 0, 0, 0, 0, 0, 0, 0, 0, 0, 0, 146]
      (List.replicate 17 0)).2.1 rfl (by decide) rfl (by decide) (by decide),
   (read_checksum_failure_local trAllZero (initBackend true) 0
      [8, 8, 0, 0, 112, 4, 0, 0, 0, 0, 0, 0, 0, 0, 0, 0, 209]
      (List.replicate 17 0)).2.2 rfl (by decide) rfl (by decide) (by decide)⟩

end Ragnok
